import Mathlib

/-
Verification of the responsive breakpoint + physics-sandbox animation
subsystem of the portfolio repository.

Shallow embedding of:
  src/lib/createDeviceSize.ts        (breakpoint tracker, two revisions)
  src/components/ui/pill-sandbox.tsx (Planck.js pill sandbox)
  src/components/ui/matterjs-pill-sandbox.tsx (Matter.js pill sandbox)
  src/components/ui/card-nav.tsx     (card morph controller)
  src/components/ui/background-gradient-switch.tsx (scroll background controller)
-/

set_option linter.unusedVariables false

/- ------------------------------------------------------------------
   Breakpoint tracker: src/lib/createDeviceSize.ts
   ------------------------------------------------------------------ -/

/-- The six breakpoint names.  The source key `2xl` is spelled `xl2` here
because a Lean name cannot start with a digit. -/
inductive DeviceSize : Type
  | base
  | sm
  | md
  | lg
  | xl
  | xl2
deriving DecidableEq, BEq, Fintype

/-- `BREAKPOINTS`: minimum pixel width of each breakpoint (mobile first),
from the object literal in createDeviceSize.ts. -/
def BREAKPOINTS : DeviceSize → Nat
  | DeviceSize.xl2 => 1536
  | DeviceSize.xl => 1280
  | DeviceSize.lg => 1024
  | DeviceSize.md => 768
  | DeviceSize.sm => 640
  | DeviceSize.base => 0

/-- `sortedBreakpoints`: the entries of `BREAKPOINTS` sorted descending by
pixel value, exactly the list the source iterates over. -/
def sortedBreakpoints : List (DeviceSize × Nat) :=
  [(DeviceSize.xl2, 1536), (DeviceSize.xl, 1280), (DeviceSize.lg, 1024),
   (DeviceSize.md, 768), (DeviceSize.sm, 640), (DeviceSize.base, 0)]

/-- The loop body of `getDeviceState`: walk the descending list and return
the first breakpoint whose minimum width is at most `width`; the source
initialises the result to `base`, which is the value when nothing matches. -/
def firstMatch (width : Nat) : List (DeviceSize × Nat) → DeviceSize
  | [] => DeviceSize.base
  | (size, minWidth) :: rest =>
    if width ≥ minWidth then size else firstMatch width rest

/-- Breakpoint classification of a viewport width, as computed by
`getDeviceState` on the client. -/
def breakpointOf (width : Nat) : DeviceSize :=
  firstMatch width sortedBreakpoints

/-- The record returned by `getDeviceState`. -/
structure DeviceState where
  width : Nat
  height : Nat
  size : DeviceSize
deriving DecidableEq

/-- `getDeviceState`: on the server (`none` environment, no viewport) the
fixed default is returned; on the client the window dimensions are read and
classified. -/
def getDeviceState (env : Option (Nat × Nat)) : DeviceState :=
  match env with
  | none => ⟨0, 0, DeviceSize.base⟩
  | some (w, h) => ⟨w, h, breakpointOf w⟩

/-- `BREAKPOINT_ORDER`: logical order of breakpoints, smallest to largest. -/
def BREAKPOINT_ORDER : List DeviceSize :=
  [DeviceSize.base, DeviceSize.sm, DeviceSize.md,
   DeviceSize.lg, DeviceSize.xl, DeviceSize.xl2]

/-- The five comparison operators accepted by `compare`. -/
inductive CmpOp : Type
  | lt
  | gt
  | le
  | ge
  | eq
deriving DecidableEq, Fintype

/-- `compare(op, bp)` from createDeviceSize.ts: compare the index of the
current breakpoint in `BREAKPOINT_ORDER` against the index of the target. -/
def DeviceSize.compare (op : CmpOp) (current bp : DeviceSize) : Bool :=
  let currentIndex := BREAKPOINT_ORDER.indexOf current
  let targetIndex := BREAKPOINT_ORDER.indexOf bp
  match op with
  | CmpOp.lt => decide (currentIndex < targetIndex)
  | CmpOp.gt => decide (currentIndex > targetIndex)
  | CmpOp.le => decide (currentIndex ≤ targetIndex)
  | CmpOp.ge => decide (currentIndex ≥ targetIndex)
  | CmpOp.eq => decide (currentIndex = targetIndex)

/-- Spec-side ordinal of a breakpoint in the ordering [base, sm, md, lg, xl, 2xl]. -/
def ordinal : DeviceSize → Nat
  | DeviceSize.base => 0
  | DeviceSize.sm => 1
  | DeviceSize.md => 2
  | DeviceSize.lg => 3
  | DeviceSize.xl => 4
  | DeviceSize.xl2 => 5

/-- The relation each operator denotes on ordinals. -/
def cmpOpRel : CmpOp → Nat → Nat → Prop
  | CmpOp.lt, a, b => a < b
  | CmpOp.gt, a, b => a > b
  | CmpOp.le, a, b => a ≤ b
  | CmpOp.ge, a, b => a ≥ b
  | CmpOp.eq, a, b => a = b

instance (op : CmpOp) (a b : Nat) : Decidable (cmpOpRel op a b) :=
  match op with
  | CmpOp.lt => inferInstanceAs (Decidable (a < b))
  | CmpOp.gt => inferInstanceAs (Decidable (a > b))
  | CmpOp.le => inferInstanceAs (Decidable (a ≤ b))
  | CmpOp.ge => inferInstanceAs (Decidable (a ≥ b))
  | CmpOp.eq => inferInstanceAs (Decidable (a = b))

/-- Sanity: the iteration list is descending in pixel value and agrees with
the `BREAKPOINTS` object. -/
theorem sortedBreakpoints_faithful :
    List.Pairwise (fun a b => a.2 ≥ b.2) sortedBreakpoints ∧
    ∀ p ∈ sortedBreakpoints, BREAKPOINTS p.1 = p.2 := by
  refine ⟨by decide, ?_⟩
  intro p hp
  fin_cases hp <;> rfl

/-- Unfolding of the classification loop into an explicit threshold chain. -/
theorem breakpointOf_eq (w : Nat) :
    breakpointOf w =
      if w ≥ 1536 then DeviceSize.xl2
      else if w ≥ 1280 then DeviceSize.xl
      else if w ≥ 1024 then DeviceSize.lg
      else if w ≥ 768 then DeviceSize.md
      else if w ≥ 640 then DeviceSize.sm
      else DeviceSize.base := by
  simp [breakpointOf, sortedBreakpoints, firstMatch]

/-- Claim C1, counterexample: the claim lists the boundary example
width 1366 classifying as lg, but 1366 is at least 1280, so the code
classifies it as xl. -/
theorem breakpointOf_1366_is_xl_not_lg :
    breakpointOf 1366 = DeviceSize.xl ∧ DeviceSize.xl ≠ DeviceSize.lg := by
  refine ⟨?_, ?_⟩ <;> decide

/-- Claim C1 (amended: width 1366 classifies as xl, not lg, because the xl
threshold is 1280): for every viewport width `w`, the breakpoint computed by
`getDeviceState` is the largest breakpoint whose minimum width is at most
`w` (thresholds base=0, sm=640, md=768, lg=1024, xl=1280, 2xl=1536), and the
boundary widths classify correctly on both sides per the thresholds
(639 is base, 640 is sm, 767 is sm, 768 is md, 1023 is md, 1024 is lg,
1366 is xl, 500 is base). -/
theorem getDeviceState_breakpoint_largest_le :
    (∀ w : Nat,
        BREAKPOINTS (breakpointOf w) ≤ w ∧
        ∀ b : DeviceSize, BREAKPOINTS b ≤ w →
          BREAKPOINTS b ≤ BREAKPOINTS (breakpointOf w)) ∧
    breakpointOf 639 = DeviceSize.base ∧
    breakpointOf 640 = DeviceSize.sm ∧
    breakpointOf 767 = DeviceSize.sm ∧
    breakpointOf 768 = DeviceSize.md ∧
    breakpointOf 1023 = DeviceSize.md ∧
    breakpointOf 1024 = DeviceSize.lg ∧
    breakpointOf 1366 = DeviceSize.xl ∧
    breakpointOf 500 = DeviceSize.base := by
  refine ⟨fun w => ?_, by decide, by decide, by decide, by decide,
    by decide, by decide, by decide, by decide⟩
  rw [breakpointOf_eq]
  split_ifs with h1 h2 h3 h4 h5 <;>
    refine ⟨by simp [BREAKPOINTS]; try omega, fun b hb => ?_⟩ <;>
    cases b <;> simp [BREAKPOINTS] at hb ⊢ <;> try omega

/-- Witness for C1: instantiation at width 800 and breakpoint sm. -/
theorem getDeviceState_breakpoint_largest_le_witness :
    BREAKPOINTS DeviceSize.sm ≤ 800 ∧
    BREAKPOINTS DeviceSize.sm ≤ BREAKPOINTS (breakpointOf 800) :=
  ⟨by decide, (getDeviceState_breakpoint_largest_le.1 800).2 DeviceSize.sm (by decide)⟩

/-- Claim C2: for every current breakpoint, target breakpoint and operator,
`compare` returns true exactly when the ordinal of the current breakpoint
stands in the corresponding relation to the ordinal of the target under the
ordering [base, sm, md, lg, xl, 2xl]. -/
theorem compare_consistent_with_ordinal :
    ∀ (op : CmpOp) (c t : DeviceSize),
      DeviceSize.compare op c t = true ↔ cmpOpRel op (ordinal c) (ordinal t) := by
  decide

/-- Claim C8: with no viewport available (server rendering), `getDeviceState`
returns the fixed default state width 0, height 0, breakpoint base; the
function is total, so no exception is possible. -/
theorem getDeviceState_server_default :
    getDeviceState none = ⟨0, 0, DeviceSize.base⟩ :=
  rfl

/- ------------------------------------------------------------------
   Resize handling: the two revisions of createDeviceSize.
   The tracker is modelled as a state machine: a resize event delivers
   the current window dimensions, and the debounce timer firing is a
   separate step that reads the dimensions current at fire time.
   ------------------------------------------------------------------ -/

/-- The three reactive signals of the tracker (`size` is the width signal). -/
structure TrackerSignals where
  size : Nat
  height : Nat
  breakpoint : DeviceSize
deriving DecidableEq

/-- Tracker state: the signals plus whether a debounce timer is pending. -/
structure TrackerState where
  sig : TrackerSignals
  timerArmed : Bool
deriving DecidableEq

/-- `handleResize` of src/lib/createDeviceSize.ts (purely debounced
revision): clear any pending timer and arm a new one; no signal is
touched during the event itself. -/
def handleResize (s : TrackerState) : TrackerState :=
  { s with timerArmed := true }

/-- The debounce timeout callback of the purely debounced revision: read
`getDeviceState` at fire time and commit all three signals together. -/
def debounceFire (env : Nat × Nat) (s : TrackerState) : TrackerState :=
  if s.timerArmed then
    { sig := { size := env.1, height := env.2, breakpoint := breakpointOf env.1 },
      timerArmed := false }
  else s

/-- `handleResize` of the immediate-breakpoint revision of createDeviceSize
(unnamed source file): first recompute the breakpoint from the current
dimensions and publish it if it changed, then arm the debounce timer; width
and height signals are untouched until the timer fires. -/
def handleResizeImmediate (env : Nat × Nat) (s : TrackerState) : TrackerState :=
  let newBreakpoint := breakpointOf env.1
  let sig1 :=
    if newBreakpoint ≠ s.sig.breakpoint
    then { s.sig with breakpoint := newBreakpoint }
    else s.sig
  { sig := sig1, timerArmed := true }

/-- The debounce timeout callback of the immediate-breakpoint revision:
commit width and height, then re-check the breakpoint as a safety net. -/
def debounceFireImmediate (env : Nat × Nat) (s : TrackerState) : TrackerState :=
  if s.timerArmed then
    let sig1 := { s.sig with size := env.1, height := env.2 }
    let finalBreakpoint := breakpointOf env.1
    let sig2 :=
      if finalBreakpoint ≠ sig1.breakpoint
      then { sig1 with breakpoint := finalBreakpoint }
      else sig1
    { sig := sig2, timerArmed := false }
  else s

/-- State of the tracker after mount at a 500 by 500 window. -/
def initialTrackerState : TrackerState :=
  ⟨⟨500, 500, DeviceSize.base⟩, false⟩

/-- Claim C3, evaluation at the failing input: after a resize of the window
from 500 to 1024 (a base-to-lg breakpoint crossing), the `handleResize` of
src/lib/createDeviceSize.ts leaves the breakpoint signal at base until the
debounce timer fires, so no breakpoint update precedes the debounced commit;
all three signals are committed together at fire time.  The
immediate-breakpoint revision present elsewhere in the repository does
publish lg during the event, before width and height commit. -/
theorem debounced_tracker_no_immediate_breakpoint :
    breakpointOf 1024 = DeviceSize.lg ∧
    (handleResize initialTrackerState).sig.breakpoint = DeviceSize.base ∧
    (handleResize initialTrackerState).sig.breakpoint ≠ breakpointOf 1024 ∧
    debounceFire (1024, 768) (handleResize initialTrackerState) =
      ⟨⟨1024, 768, DeviceSize.lg⟩, false⟩ ∧
    (handleResizeImmediate (1024, 768) initialTrackerState).sig.breakpoint =
      DeviceSize.lg ∧
    (handleResizeImmediate (1024, 768) initialTrackerState).sig.size = 500 ∧
    debounceFireImmediate (1024, 768)
        (handleResizeImmediate (1024, 768) initialTrackerState) =
      ⟨⟨1024, 768, DeviceSize.lg⟩, false⟩ := by
  refine ⟨?_, ?_, ?_, ?_, ?_, ?_, ?_⟩ <;> decide

/- ------------------------------------------------------------------
   Pill sandbox shapes and walls.
   Planck variant: src/components/ui/pill-sandbox.tsx (world units,
   SCALE_FACTOR 50 px per unit).
   Matter variant: src/components/ui/matterjs-pill-sandbox.tsx (pixels).
   ------------------------------------------------------------------ -/

/-- Pixels per physics world unit in the Planck variant. -/
def SCALE_FACTOR : ℚ := 50

/-- A primitive collision fixture.  `box` carries half extents and a centre
offset (Planck `Box`); `circle` carries a centre offset and radius (Planck
`Circle`); `chamferRect` is a Matter rectangle of full width and height
whose corners are chamfered with the given radius. -/
inductive Fixture : Type
  | box (halfWidth halfHeight cx cy : ℚ)
  | circle (cx cy radius : ℚ)
  | chamferRect (width height chamferRadius : ℚ)
deriving DecidableEq

/-- The fixtures attached to one pill body in the Planck variant, from the
measured DOM footprint in pixels: dimensions are scaled to world units, and
a capsule (central box plus two end-cap circles) is built when the pill is
wider than tall, else a single circle. -/
def planckPillFixtures (offsetWidth offsetHeight : ℚ) : List Fixture :=
  let width := offsetWidth / SCALE_FACTOR
  let height := offsetHeight / SCALE_FACTOR
  let radius := height / 2
  if width > height then
    let rectWidth := width - height
    [Fixture.box (rectWidth / 2) radius 0 0,
     Fixture.circle (-(rectWidth / 2)) 0 radius,
     Fixture.circle (rectWidth / 2) 0 radius]
  else
    [Fixture.circle 0 0 radius]

/-- The shape of one pill body in the Matter variant: a single
`Bodies.rectangle` of the full footprint with chamfer radius height over
two, built unconditionally (position omitted; it is random). -/
def matterPillFixtures (offsetWidth offsetHeight : ℚ) : List Fixture :=
  [Fixture.chamferRect offsetWidth offsetHeight (offsetHeight / 2)]

/-- Modelled from the claim wording: a capsule composed of a central box of
width (width minus height) plus two circular end caps of radius height over
two centred at the box ends when width exceeds height, else a single circle
of radius height over two. -/
def capsuleSpecFixtures (width height : ℚ) : List Fixture :=
  if width > height then
    [Fixture.box ((width - height) / 2) (height / 2) 0 0,
     Fixture.circle (-((width - height) / 2)) 0 (height / 2),
     Fixture.circle ((width - height) / 2) 0 (height / 2)]
  else
    [Fixture.circle 0 0 (height / 2)]

/-- Claim C4, counterexample: a pill measuring 100 by 40 pixels gets a
single chamfered rectangle in the Matter variant, not the box plus two end
caps the claim describes; a 40 by 60 pill (width not exceeding height) also
gets a chamfered rectangle there, not a circle. -/
theorem matter_pill_not_capsule_composition :
    matterPillFixtures 100 40 ≠ capsuleSpecFixtures 100 40 ∧
    matterPillFixtures 40 60 ≠ capsuleSpecFixtures 40 60 := by
  refine ⟨?_, ?_⟩ <;> decide

/-- Claim C4 (amended: the capsule-or-circle construction holds in the
Planck variant, in world units scaled by 50 px per unit; the Matter variant
instead always builds one rectangle of the full footprint with corner
chamfer radius height over two, with no circle case): for every measured
footprint, the Planck body is exactly the capsule the claim describes and
the Matter body is the unconditional chamfered rectangle. -/
theorem pill_shape_planck_capsule_matter_chamfer :
    ∀ offsetWidth offsetHeight : ℚ,
      planckPillFixtures offsetWidth offsetHeight =
        capsuleSpecFixtures (offsetWidth / SCALE_FACTOR) (offsetHeight / SCALE_FACTOR) ∧
      matterPillFixtures offsetWidth offsetHeight =
        [Fixture.chamferRect offsetWidth offsetHeight (offsetHeight / 2)] := by
  intro offsetWidth offsetHeight
  exact ⟨rfl, rfl⟩

/- ------------------------------------------------------------------
   Boundary walls.
   ------------------------------------------------------------------ -/

/-- The four walls, in the construction order of both sources. -/
structure WallSet (α : Type) where
  top : α
  bottom : α
  left : α
  right : α

/-- A Planck wall fixture: `Box(halfWidth, halfHeight, center)`. -/
structure PlanckBoxFixture where
  halfWidth : ℚ
  halfHeight : ℚ
  cx : ℚ
  cy : ℚ
deriving DecidableEq

/-- A Matter wall body: `Bodies.rectangle(x, y, width, height)` with centre
position and full extents. -/
structure MatterRect where
  cx : ℚ
  cy : ℚ
  width : ℚ
  height : ℚ
deriving DecidableEq

/-- The static walls of the Planck variant, from the measured container
pixel dimensions: the container is scaled to world units and each wall is a
box of half extent one tenth across the boundary (full thickness one
fifth of a world unit), centred one twentieth of a unit inside the edge. -/
def planckWalls (clientWidth clientHeight : ℚ) : WallSet PlanckBoxFixture :=
  let w := clientWidth / SCALE_FACTOR
  let h := clientHeight / SCALE_FACTOR
  { top := ⟨w / 2, 1 / 10, w / 2, 1 / 20⟩
    bottom := ⟨w / 2, 1 / 10, w / 2, h - 1 / 20⟩
    left := ⟨1 / 10, h / 2, 1 / 20, h / 2⟩
    right := ⟨1 / 10, h / 2, w - 1 / 20, h / 2⟩ }

/-- `wallThickness` of the Matter variant, in Matter world units (pixels). -/
def wallThickness : ℚ := 300

/-- The static walls of the Matter variant, placed just outside the
container: each is `wallThickness` thick across the boundary. -/
def matterWalls (width height : ℚ) : WallSet MatterRect :=
  { top := ⟨width / 2, -(wallThickness / 2), width, wallThickness⟩
    bottom := ⟨width / 2, height + wallThickness / 2, width, wallThickness⟩
    left := ⟨-(wallThickness / 2), height / 2, wallThickness, height⟩
    right := ⟨width + wallThickness / 2, height / 2, wallThickness, height⟩ }

/-- Claim C7, counterexample: in the Planck variant at a 800 by 600 pixel
container, the top wall is two times one tenth, that is one fifth of a
world unit thick across the boundary (10 pixels), which is less than one
world unit, so not at least several world units; the same holds for the
other three walls. -/
theorem planck_wall_thickness_below_one_unit :
    (planckWalls 800 600).top.halfHeight * 2 = 1 / 5 ∧
    (planckWalls 800 600).bottom.halfHeight * 2 = 1 / 5 ∧
    (planckWalls 800 600).left.halfWidth * 2 = 1 / 5 ∧
    (planckWalls 800 600).right.halfWidth * 2 = 1 / 5 ∧
    (1 : ℚ) / 5 < 1 := by
  refine ⟨?_, ?_, ?_, ?_, ?_⟩ <;> norm_num [planckWalls]

/-- Claim C7 (amended: only the Matter variant has thick walls — each of its
four walls is 300 world units (pixels) thick across the boundary; in the
Planck variant each wall is only one fifth of a world unit (10 pixels)
thick): thickness across the boundary of every wall, in both variants, for
every container size. -/
theorem wall_thickness_by_variant :
    ∀ cw ch : ℚ,
      (matterWalls cw ch).top.height = 300 ∧
      (matterWalls cw ch).bottom.height = 300 ∧
      (matterWalls cw ch).left.width = 300 ∧
      (matterWalls cw ch).right.width = 300 ∧
      (2 : ℚ) ≤ 300 ∧
      (planckWalls cw ch).top.halfHeight * 2 = 1 / 5 ∧
      (planckWalls cw ch).bottom.halfHeight * 2 = 1 / 5 ∧
      (planckWalls cw ch).left.halfWidth * 2 = 1 / 5 ∧
      (planckWalls cw ch).right.halfWidth * 2 = 1 / 5 := by
  intro cw ch
  refine ⟨rfl, rfl, rfl, rfl, by norm_num, ?_, ?_, ?_, ?_⟩ <;>
    norm_num [planckWalls]

/- ------------------------------------------------------------------
   Per-frame visual rotation (sync loop of both sandbox variants).
   ------------------------------------------------------------------ -/

/-- Clamp of the rotation target: in the Planck variant
`Math.max(Math.min(x, maxRotation), -maxRotation)`, in the Matter variant
`Common.clamp(x, -max, max)`; both equal this function. -/
def clampQ (x lo hi : ℚ) : ℚ := max (min x hi) lo

/-- One iteration of the rotation update in the sync loop: the target is
the horizontal velocity times the tilt factor, clamped to the maximum
visual rotation, and the rotation moves a fixed fraction (rotationSmoothing
= one tenth) toward the target. -/
def rotStep (tiltFactor maxRotation r vx : ℚ) : ℚ :=
  r + (clampQ (vx * tiltFactor) (-maxRotation) maxRotation - r) * (1 / 10)

/-- The rotation after processing a sequence of per-frame horizontal
velocities, starting from the initial rotation 0. -/
def rotRun (tiltFactor maxRotation : ℚ) (vels : List ℚ) : ℚ :=
  vels.foldl (rotStep tiltFactor maxRotation) 0

/-- One rotation step preserves the bound. -/
theorem rotStep_bound (tiltFactor maxRotation r vx : ℚ)
    (hM : 0 ≤ maxRotation) (hr : |r| ≤ maxRotation) :
    |rotStep tiltFactor maxRotation r vx| ≤ maxRotation := by
  have hc1 : -maxRotation ≤ clampQ (vx * tiltFactor) (-maxRotation) maxRotation :=
    le_max_right _ _
  have hc2 : clampQ (vx * tiltFactor) (-maxRotation) maxRotation ≤ maxRotation :=
    max_le (min_le_right _ _) (by linarith)
  rw [abs_le] at hr ⊢
  unfold rotStep
  constructor <;> nlinarith [hr.1, hr.2, hc1, hc2]

/-- Folding rotation steps from any in-bound rotation stays in bound. -/
theorem rotFold_bound (tiltFactor maxRotation : ℚ) (hM : 0 ≤ maxRotation) :
    ∀ (vels : List ℚ) (r : ℚ), |r| ≤ maxRotation →
      |vels.foldl (rotStep tiltFactor maxRotation) r| ≤ maxRotation := by
  intro vels
  induction vels with
  | nil => intro r hr; simpa using hr
  | cons v rest ih =>
    intro r hr
    simpa using ih _ (rotStep_bound tiltFactor maxRotation r v hM hr)

/-- Claim C10: starting from visual rotation 0, after every iteration of
the per-frame sync loop the rotation magnitude never exceeds the maximum
visual rotation, for any sequence of body velocities, because each step
moves the rotation one tenth of the way toward a target clamped to the
interval from minus the maximum to the maximum. -/
theorem visual_rotation_bounded :
    ∀ (tiltFactor maxRotation : ℚ) (vels : List ℚ), 0 ≤ maxRotation →
      |rotRun tiltFactor maxRotation vels| ≤ maxRotation := by
  intro tiltFactor maxRotation vels hM
  exact rotFold_bound tiltFactor maxRotation hM vels 0 (by simpa using hM)

/-- Witness for C10: bound 1, velocities 100, -100, 3. -/
theorem visual_rotation_bounded_witness :
    (0 : ℚ) ≤ 1 ∧ |rotRun (1 / 20) 1 [100, -100, 3]| ≤ 1 :=
  ⟨by norm_num, visual_rotation_bounded (1 / 20) 1 [100, -100, 3] (by norm_num)⟩

/- ------------------------------------------------------------------
   Card morph controller: src/components/ui/card-nav.tsx.
   The GSAP timeline is modelled by a progress in [0, 1] and a reversed
   flag; the onReverseComplete callback of createTimeline sets
   isExpanded to false when the reversed playhead reaches 0.
   ------------------------------------------------------------------ -/

/-- State of a card: the logical open flag (`isOpen`), the visual
visibility flag (`isExpanded`, the isVisible of the claim), and the
timeline playhead. -/
structure CardState where
  isOpen : Bool
  isExpanded : Bool
  progress : ℚ
  reversed : Bool
deriving DecidableEq

/-- `toggleMenu` followed by the animation trigger effect: flip `isOpen`;
when opening, set `isExpanded` true before playing forward; when closing,
only reverse the timeline — `isExpanded` is left untouched until the
reverse animation completes. -/
def toggleStep (s : CardState) : CardState :=
  let nextOpen := !s.isOpen
  if nextOpen then
    { s with isOpen := nextOpen, isExpanded := true, reversed := false }
  else
    { s with isOpen := nextOpen, reversed := true }

/-- Advance the timeline by `dt`: forward the playhead moves toward 1;
reversed it moves toward 0, and on reaching 0 the onReverseComplete
callback fires, setting `isExpanded` to false. -/
def tick (dt : ℚ) (s : CardState) : CardState :=
  if s.reversed then
    let p := max 0 (s.progress - dt)
    if p = 0 then { s with progress := p, isExpanded := false }
    else { s with progress := p }
  else
    { s with progress := min 1 (s.progress + dt) }

/-- The collapsed initial state of a card. -/
def initialCardState : CardState := ⟨false, false, 0, false⟩

/-- The double-toggle scenario: from collapsed, toggle open, let the open
animation run for time `t`, toggle closed, then let a full unit of time
elapse. -/
def doubleToggleRun (t : ℚ) : CardState :=
  tick 1 (toggleStep (tick t (toggleStep initialCardState)))

/-- Claim C5: `isExpanded` (the isVisible of the claim) is set true at the
start of opening; it transitions to false only when the reverse animation
completes (a toggle never clears it, and a tick clears it only with the
playhead reversed and reaching 0); consequently toggling twice in
succession, with the second toggle before the open animation completes,
ends collapsed with `isExpanded` false. -/
theorem cardnav_deferred_hide_toggle :
    (∀ s : CardState, s.isOpen = false →
        (toggleStep s).isExpanded = true ∧ (toggleStep s).isOpen = true ∧
        (toggleStep s).reversed = false) ∧
    (∀ s : CardState, s.isExpanded = true → (toggleStep s).isExpanded = true) ∧
    (∀ (s : CardState) (dt : ℚ), (tick dt s).isExpanded = false →
        s.isExpanded = false ∨
        (s.reversed = true ∧ max 0 (s.progress - dt) = 0)) ∧
    (∀ t : ℚ, 0 ≤ t → t < 1 →
        (doubleToggleRun t).isOpen = false ∧
        (doubleToggleRun t).isExpanded = false ∧
        (doubleToggleRun t).progress = 0) := by
  refine ⟨?_, ?_, ?_, ?_⟩
  · intro s hs
    simp [toggleStep, hs]
  · intro s hs
    cases hOpen : s.isOpen <;> simp [toggleStep, hOpen, hs]
  · intro s dt h
    cases hrev : s.reversed with
    | false =>
      simp [tick, hrev] at h
      exact Or.inl h
    | true =>
      by_cases hp : max 0 (s.progress - dt) = 0
      · exact Or.inr ⟨rfl, hp⟩
      · simp [tick, hrev, hp] at h
        exact Or.inl h
  · intro t ht0 ht1
    have hmin : min 1 (0 + t) ≤ 1 := min_le_left _ _
    have hmax : max 0 (min 1 (0 + t) - 1) = 0 := by
      apply max_eq_left
      linarith
    simp [doubleToggleRun, initialCardState, toggleStep, tick, hmax]

/-- Witness for C5: the double-toggle scenario with the second toggle at
time one half through the open animation. -/
theorem cardnav_deferred_hide_toggle_witness :
    (doubleToggleRun (1 / 2)).isOpen = false ∧
    (doubleToggleRun (1 / 2)).isExpanded = false ∧
    (doubleToggleRun (1 / 2)).progress = 0 :=
  cardnav_deferred_hide_toggle.2.2.2 (1 / 2) (by norm_num) (by norm_num)

/- ------------------------------------------------------------------
   Scroll-linked background controller:
   src/components/ui/background-gradient-switch.tsx.
   ------------------------------------------------------------------ -/

/-- An RGBA color, as in the source type. -/
structure RgbaColor where
  r : ℚ
  g : ℚ
  b : ℚ
  a : ℚ
deriving DecidableEq

/-- The hardcoded ultimate fallback color. -/
def TRANSPARENT_BLACK : RgbaColor := ⟨0, 0, 0, 0⟩

/-- A registered trigger: the vertical document position of its element
(its bounding rectangle top) and its computed start and end colors. -/
structure TriggerData where
  top : ℚ
  computedBgStart : RgbaColor
  computedBgEnd : RgbaColor
deriving DecidableEq

/-- One ScrollTrigger as built by the controller: the element position, the
gradient pair the onEnter animation targets, and the gradient pair the
onLeaveBack animation targets. -/
structure BuiltTrigger where
  top : ℚ
  enterStart : RgbaColor
  enterEnd : RgbaColor
  leaveBackStart : RgbaColor
  leaveBackEnd : RgbaColor
deriving DecidableEq

/-- Comparator of the sort call: ascending by bounding rectangle top. -/
def triggerLE (a b : TriggerData) : Prop := a.top ≤ b.top

instance : DecidableRel triggerLE :=
  fun a b => inferInstanceAs (Decidable (a.top ≤ b.top))

instance : IsTotal TriggerData triggerLE :=
  ⟨fun a b => le_total a.top b.top⟩

instance : IsTrans TriggerData triggerLE :=
  ⟨fun _ _ _ h1 h2 => le_trans h1 h2⟩

/-- The sort of the registered triggers by current vertical document
position (a stable sort, as JavaScript Array sort is). -/
def sortTriggersByTop (ts : List TriggerData) : List TriggerData :=
  List.insertionSort triggerLE ts

/-- The per-index trigger construction: each built trigger animates to its
own colors on enter, and on leave-back to the colors of the previous sorted
trigger, or to the controller default when it is first; `prevStart` and
`prevEnd` carry the colors of the preceding trigger along the recursion. -/
def buildFrom (prevStart prevEnd : RgbaColor) : List TriggerData → List BuiltTrigger
  | [] => []
  | t :: rest =>
    ⟨t.top, t.computedBgStart, t.computedBgEnd, prevStart, prevEnd⟩ ::
      buildFrom t.computedBgStart t.computedBgEnd rest

/-- The trigger rebuild of the controller effect: sort the registered
triggers by document position, then build each ScrollTrigger with its
leave-back colors taken from its predecessor, the default color for the
first. -/
def buildScrollTriggers (defaultColor : RgbaColor) (ts : List TriggerData) :
    List BuiltTrigger :=
  buildFrom defaultColor defaultColor (sortTriggersByTop ts)

/-- The leave-back target of a trigger equals the enter target of its
predecessor. -/
def prevLink (x y : BuiltTrigger) : Prop :=
  y.leaveBackStart = x.enterStart ∧ y.leaveBackEnd = x.enterEnd

/-- Building preserves the element positions in order. -/
theorem buildFrom_map_top :
    ∀ (l : List TriggerData) (pS pE : RgbaColor),
      (buildFrom pS pE l).map BuiltTrigger.top = l.map TriggerData.top := by
  intro l
  induction l with
  | nil => intro pS pE; rfl
  | cons t rest ih =>
    intro pS pE
    simp [buildFrom, ih]

/-- The first built trigger carries the initial previous colors. -/
theorem buildFrom_head (pS pE : RgbaColor) (l : List TriggerData) :
    ∀ x, (buildFrom pS pE l).head? = some x →
      x.leaveBackStart = pS ∧ x.leaveBackEnd = pE := by
  cases l with
  | nil => intro x hx; simp [buildFrom] at hx
  | cons t rest =>
    intro x hx
    simp [buildFrom] at hx
    subst hx
    exact ⟨rfl, rfl⟩

/-- Consecutive built triggers are linked: each leave-back target is the
enter target of the predecessor. -/
theorem buildFrom_chain :
    ∀ (l : List TriggerData) (pS pE : RgbaColor),
      List.Chain' prevLink (buildFrom pS pE l) := by
  intro l
  induction l with
  | nil => intro pS pE; simp [buildFrom]
  | cons t rest ih =>
    intro pS pE
    simp only [buildFrom]
    rw [List.chain'_cons']
    refine ⟨?_, ih t.computedBgStart t.computedBgEnd⟩
    intro y hy
    rw [Option.mem_def] at hy
    have h := buildFrom_head t.computedBgStart t.computedBgEnd rest y hy
    exact ⟨h.1, h.2⟩

/-- Scenario constants: default black, section A at document position 100,
section B at document position 500, with distinct colors. -/
def defaultBlack : RgbaColor := ⟨0, 0, 0, 1⟩

def colorAStart : RgbaColor := ⟨10, 10, 10, 1⟩

def colorAEnd : RgbaColor := ⟨20, 20, 20, 1⟩

def colorBStart : RgbaColor := ⟨30, 30, 30, 1⟩

def colorBEnd : RgbaColor := ⟨40, 40, 40, 1⟩

def sectionA : TriggerData := ⟨100, colorAStart, colorAEnd⟩

def sectionB : TriggerData := ⟨500, colorBStart, colorBEnd⟩

/-- Claim C6: triggers are rebuilt in ascending order of vertical document
position; each trigger's scroll-backward exit animates to the immediately
preceding trigger's colors, or to the controller default when first.  In
the scenario with sections A (y=100) and B (y=500) registered out of
order, the rebuilt triggers are A then B, scrolling back above B's trigger
targets A's end color, and above A's trigger the default. -/
theorem bg_triggers_sorted_and_prev_color :
    (∀ (d : RgbaColor) (ts : List TriggerData),
        List.Sorted (fun a b : ℚ => a ≤ b)
          ((buildScrollTriggers d ts).map BuiltTrigger.top) ∧
        List.Chain' prevLink (buildScrollTriggers d ts) ∧
        ∀ x, (buildScrollTriggers d ts).head? = some x →
          x.leaveBackStart = d ∧ x.leaveBackEnd = d) ∧
    buildScrollTriggers defaultBlack [sectionB, sectionA] =
      [⟨100, colorAStart, colorAEnd, defaultBlack, defaultBlack⟩,
       ⟨500, colorBStart, colorBEnd, colorAStart, colorAEnd⟩] := by
  refine ⟨fun d ts => ⟨?_, ?_, ?_⟩, ?_⟩
  · rw [List.Sorted, buildScrollTriggers, buildFrom_map_top, List.pairwise_map]
    exact List.sorted_insertionSort triggerLE ts
  · exact buildFrom_chain (sortTriggersByTop ts) d d
  · exact buildFrom_head d d (sortTriggersByTop ts)
  · decide

/-- Witness for C6: the first trigger of the single-section scenario
leave-backs to the default color. -/
theorem bg_triggers_sorted_and_prev_color_witness :
    (⟨100, colorAStart, colorAEnd, defaultBlack, defaultBlack⟩ :
        BuiltTrigger).leaveBackStart = defaultBlack ∧
    (⟨100, colorAStart, colorAEnd, defaultBlack, defaultBlack⟩ :
        BuiltTrigger).leaveBackEnd = defaultBlack :=
  (bg_triggers_sorted_and_prev_color.1 defaultBlack [sectionA]).2.2
    ⟨100, colorAStart, colorAEnd, defaultBlack, defaultBlack⟩ (by decide)

/- ------------------------------------------------------------------
   Color computation: computeColor of background-gradient-switch.tsx.
   The external parser (getComputedColor composed with
   gsap.utils.splitColor) is a parameter; a JavaScript throw inside the
   try block is an `Except.error` outcome.
   ------------------------------------------------------------------ -/

/-- The result of a successful parse: three channels and an optional alpha
(splitColor omits the alpha for colors without one). -/
structure ParsedColor where
  r : ℚ
  g : ℚ
  b : ℚ
  a : Option ℚ
deriving DecidableEq

/-- `computeColor`: an absent or empty color string yields the fallback; a
parse failure is caught and yields the fallback with a logged warning (the
Bool component); a successful parse yields the parsed channels with alpha
defaulted to 1.  The function is total: no exception propagates. -/
def computeColor (parseColor : String → Except Unit ParsedColor)
    (colorString : Option String) (fallbackColor : RgbaColor) :
    RgbaColor × Bool :=
  match colorString with
  | none => (fallbackColor, false)
  | some s =>
    if s = "" then (fallbackColor, false)
    else
      match parseColor s with
      | Except.ok c => (⟨c.r, c.g, c.b, c.a.getD 1⟩, false)
      | Except.error _ => (fallbackColor, true)

/-- Claim C9: for every input, `computeColor` returns a value (never lets
an exception reach the caller): an undefined or empty string returns the
given fallback color, an unparseable string returns the fallback with a
logged warning, and a valid string returns its parsed RGBA value with
alpha defaulted to 1. -/
theorem computeColor_total_fallback :
    ∀ (parseColor : String → Except Unit ParsedColor) (fb : RgbaColor),
      computeColor parseColor none fb = (fb, false) ∧
      computeColor parseColor (some "") fb = (fb, false) ∧
      (∀ (s : String) (c : ParsedColor), s ≠ "" → parseColor s = Except.ok c →
          computeColor parseColor (some s) fb = (⟨c.r, c.g, c.b, c.a.getD 1⟩, false)) ∧
      (∀ (s : String) (e : Unit), s ≠ "" → parseColor s = Except.error e →
          computeColor parseColor (some s) fb = (fb, true)) := by
  intro parseColor fb
  refine ⟨rfl, rfl, ?_, ?_⟩
  · intro s c hs hok
    simp [computeColor, hs, hok]
  · intro s e hs herr
    simp [computeColor, hs, herr]

/-- A concrete parser for the witness: parses one known color name. -/
def demoParseColor (s : String) : Except Unit ParsedColor :=
  if s = "red" then Except.ok ⟨255, 0, 0, none⟩ else Except.error ()

/-- Witness for C9: the three outcomes at concrete inputs. -/
theorem computeColor_total_fallback_witness :
    computeColor demoParseColor none TRANSPARENT_BLACK = (TRANSPARENT_BLACK, false) ∧
    computeColor demoParseColor (some "red") TRANSPARENT_BLACK =
      (⟨255, 0, 0, 1⟩, false) ∧
    computeColor demoParseColor (some "nope") TRANSPARENT_BLACK =
      (TRANSPARENT_BLACK, true) :=
  ⟨(computeColor_total_fallback demoParseColor TRANSPARENT_BLACK).1,
   (computeColor_total_fallback demoParseColor TRANSPARENT_BLACK).2.2.1
     "red" ⟨255, 0, 0, none⟩ (by decide) (by rfl),
   (computeColor_total_fallback demoParseColor TRANSPARENT_BLACK).2.2.2
     "nope" () (by decide) (by rfl)⟩
